import Mathlib

/-!
Verification of the Multi-Mission Classification Pipeline of the
nasa-exoplanet-detector repository against its specification.

The backend code lives in `backend/api/predict.py`, `backend/core/model_registry.py`
and `backend/schemas/prediction.py` (reproduced in the repository's backend
implementation guide).  Probabilities and thresholds are embedded as rationals;
the pickled classifier and scaler objects are opaque external data, so a
classifier is embedded as a function from feature vectors to probabilities and
a scaler as a function on feature vectors.  The per-row preprocessing
(`src/preprocessing.clean_data` / `src/features.extract_features`) is not part
of the source snapshot, so the batch endpoint is parametrised by the row
extraction function; rows on which extraction fails are dropped, exactly as
`extract_features` drops them from the data frame.
-/

namespace Exo

/-- A classifier behind the `predict_proba(vector)[:, 1]` contract of the
Classifier Adapter: a function from a feature vector to a probability. -/
def Model : Type := List ℚ → ℚ

/-- A fitted scaler behind `FeatureScaler.transform`. -/
def Scaler : Type := List ℚ → List ℚ

/-- Embedding of `backend/core/model_registry.py` `ModelRegistry`: the two
dictionaries `_models` and `_scalers`, keyed by model name. -/
structure ModelRegistry where
  models : List (String × Model)
  scalers : List (String × Scaler)

/-- `ModelRegistry.list_models`: `list(self._models.keys())`. -/
def ModelRegistry.list_models (reg : ModelRegistry) : List String :=
  reg.models.map Prod.fst

/-- The message of the `ValueError` raised by `ModelRegistry.get_model` for an
unknown name: `Model <name> not found. Available: <keys>` (the Python source
quotes the name and prints the key list; the quoting characters are left out
here, the content is the same). -/
def unknownModelMessage (name : String) (avail : List String) : String :=
  "Model " ++ name ++ " not found. Available: " ++ toString avail

/-- Embedding of `ModelRegistry.get_model`: return the model stored under
`model_name`, or raise `ValueError` with a message listing the available
names. -/
def ModelRegistry.get_model (reg : ModelRegistry) (name : String) :
    Except String Model :=
  match reg.models.lookup name with
  | some m => Except.ok m
  | none => Except.error (unknownModelMessage name reg.list_models)

/-- Embedding of `ModelRegistry.get_scaler`: `self._scalers.get(model_name)`,
`None` when absent. -/
def ModelRegistry.get_scaler (reg : ModelRegistry) (name : String) :
    Option Scaler :=
  reg.scalers.lookup name

/-- A raw CSV cell: a number, a string, or NaN (a missing value). -/
inductive Cell
  | num (q : ℚ)
  | str (s : String)
  | nan
deriving DecidableEq

/-- A raw table row as read by `pd.read_csv`: column name to cell. -/
structure RawRow where
  cells : List (String × Cell)
deriving DecidableEq

/-- An uploaded file: its name and its parsed rows. -/
structure UploadFile where
  filename : String
  rows : List RawRow
deriving DecidableEq

/-- `backend/schemas/prediction.py` `SinglePrediction` (the `features` echo of
`X.iloc[idx]` is the extracted numeric feature vector of the row). -/
structure SinglePrediction where
  id : String
  prediction : String
  probability : ℚ
  features : List ℚ
deriving DecidableEq

/-- `backend/schemas/prediction.py` `PredictionSummary`. -/
structure PredictionSummary where
  predicted_planets : Nat
  false_positives : Nat
  mean_probability : ℚ
  high_confidence_count : Nat
deriving DecidableEq

/-- `backend/schemas/prediction.py` `PredictionResponse`
(`processing_time_ms` is wall-clock time and is not embedded). -/
structure PredictionResponse where
  success : Bool
  model_used : String
  threshold : ℚ
  total_samples : Nat
  predictions : List SinglePrediction
  summary : PredictionSummary
deriving DecidableEq

/-- A Python exception escaping the body of the endpoint handler:
an `HTTPException(status_code, detail)` or a `ValueError(message)`. -/
inductive PyExc
  | httpExc (status : Nat) (detail : String)
  | valueError (msg : String)
deriving DecidableEq

/-- `str(e)` of an escaped exception, as interpolated into
`f"Prediction failed: {str(e)}"`. -/
def PyExc.toMessage : PyExc → String
  | .httpExc status detail => toString status ++ ": " ++ detail
  | .valueError msg => msg

/-- The failure surfaced to the HTTP caller: either the FastAPI request
validation rejection (the `Form(..., ge=0.0, le=1.0)` constraint on
`threshold`, the spec's `InvalidThresholdError`), or an `HTTPException`
raised by the handler. -/
inductive ApiFailure
  | validationError (field : String)
  | http (status : Nat) (detail : String)
deriving DecidableEq

/-- The id columns probed by `predict_exoplanets` for a sample id, in order. -/
def idColumns : List String := ["kepoi_name", "koi_id", "kepid", "id"]

/-- The textual value of a cell for `str(row[id_col])`. -/
def Cell.text : Cell → String
  | .num q => toString q
  | .str s => s
  | .nan => "nan"

/-- `pd.notna` on a cell. -/
def Cell.notna : Cell → Bool
  | .nan => false
  | _ => true

/-- First id column present in the row with a non-NaN value, if any. -/
def firstIdValue (row : RawRow) : Option String :=
  idColumns.foldr
    (fun c acc =>
      match row.cells.lookup c with
      | some v => if v.notna then some v.text else acc
      | none => acc)
    none

/-- The sample id of a row: the first non-NaN id column, else the original
data-frame index `str(orig_idx)`. -/
def sampleId (idx : Nat) (row : RawRow) : String :=
  match firstIdValue row with
  | some s => s
  | none => toString idx

/-- `Extractor` stands for the composite `clean_data` / `extract_features`
per-row transform: it yields the numeric feature vector of a row, or the
error on which the row is dropped from the extracted data frame. -/
def Extractor : Type := RawRow → Except String (List ℚ)

/-- The rows surviving `clean_data` and `extract_features`, with their
original data-frame index and their extracted feature vector, in input
order (pandas preserves the index order of the surviving rows). -/
def processRows (ex : Extractor) : Nat → List RawRow → List (Nat × RawRow × List ℚ)
  | _, [] => []
  | i, r :: rs =>
    match ex r with
    | Except.ok v => (i, r, v) :: processRows ex (i + 1) rs
    | Except.error _ => processRows ex (i + 1) rs

/-- The valid rows of an uploaded file (`df.loc[X.index]` with the extracted
vectors `X`). -/
def validRows (ex : Extractor) (file : UploadFile) : List (Nat × RawRow × List ℚ) :=
  processRows ex 0 file.rows

/-- Rows dropped by extraction (not present in `df_features`). -/
def excludedCount (ex : Extractor) (file : UploadFile) : Nat :=
  file.rows.countP (fun r => (ex r).toOption.isNone)

/-- `X_scaled`: apply the model's scaler when one is loaded, else pass the
vector through. -/
def applyScaler (scaler : Option Scaler) (v : List ℚ) : List ℚ :=
  match scaler with
  | some s => s v
  | none => v

/-- The label of one row, from `y_pred = (y_proba >= threshold).astype(int)`
and `"PLANET" if y_pred[idx] == 1 else "FALSE POSITIVE"`. -/
def predLabel (p t : ℚ) : String :=
  if t ≤ p then "PLANET" else "FALSE POSITIVE"

/-- The probability the classifier assigns to one valid row:
`clf.predict_proba(X_scaled)[:, 1]` at the row's position. -/
def rowProb (clf : Model) (scaler : Option Scaler) (e : Nat × RawRow × List ℚ) : ℚ :=
  clf (applyScaler scaler e.2.2)

/-- The `SinglePrediction` built for one valid row in the response loop. -/
def mkPrediction (t : ℚ) (clf : Model) (scaler : Option Scaler)
    (e : Nat × RawRow × List ℚ) : SinglePrediction :=
  { id := sampleId e.1 e.2.1
    prediction := predLabel (rowProb clf scaler e) t
    probability := rowProb clf scaler e
    features := e.2.2 }

/-- The summary block of the response, from `y_pred` and `y_proba`:
`np.sum(y_pred == 1)`, `np.sum(y_pred == 0)`, `np.mean(y_proba)`,
`np.sum(y_proba > 0.7)`. -/
def mkSummary (t : ℚ) (probs : List ℚ) : PredictionSummary :=
  { predicted_planets := probs.countP (fun p => decide (t ≤ p))
    false_positives := probs.countP (fun p => decide (¬ t ≤ p))
    mean_probability := probs.sum / (probs.length : ℚ)
    high_confidence_count := probs.countP (fun p => decide ((7 : ℚ) / 10 < p)) }

/-- The successful `PredictionResponse` assembled by `predict_exoplanets`. -/
def buildResponse (model : String) (t : ℚ) (clf : Model) (scaler : Option Scaler)
    (vr : List (Nat × RawRow × List ℚ)) : PredictionResponse :=
  let preds := vr.map (mkPrediction t clf scaler)
  { success := true
    model_used := model
    threshold := t
    total_samples := preds.length
    predictions := preds
    summary := mkSummary t (vr.map (rowProb clf scaler)) }

/-- The body of the `try:` block of `predict_exoplanets`: file-type check,
load and extract, empty check, registry lookups, scaling, scoring, response
assembly.  Raised exceptions are returned as `PyExc` values. -/
def predictBody (reg : ModelRegistry) (ex : Extractor) (file : UploadFile)
    (model : String) (t : ℚ) : Except PyExc PredictionResponse :=
  if ¬ file.filename.endsWith ".csv" then
    Except.error (PyExc.httpExc 400 "File must be a CSV")
  else
    let vr := validRows ex file
    if vr.isEmpty then
      Except.error (PyExc.httpExc 400 "No valid samples found in file")
    else
      match reg.get_model model with
      | Except.error msg => Except.error (PyExc.valueError msg)
      | Except.ok clf =>
        Except.ok (buildResponse model t clf (reg.get_scaler model) vr)

/-- Embedding of the `POST /predict` endpoint `predict_exoplanets`.
FastAPI first enforces the `Form(0.5, ge=0.0, le=1.0)` constraint on the
threshold (a request validation error, before the handler runs); then the
handler body runs inside `try: ... except Exception as e:
raise HTTPException(500, f"Prediction failed: {str(e)}")`, so every
exception the body raises — the 400 `HTTPException`s included — is
re-raised as a generic 500. -/
def predict_exoplanets (reg : ModelRegistry) (ex : Extractor) (file : UploadFile)
    (model : String) (t : ℚ) : Except ApiFailure PredictionResponse :=
  if ¬ (0 ≤ t ∧ t ≤ 1) then
    Except.error (ApiFailure.validationError "threshold")
  else
    match predictBody reg ex file model t with
    | Except.ok resp => Except.ok resp
    | Except.error e =>
      Except.error (ApiFailure.http 500 ("Prediction failed: " ++ e.toMessage))

/-! ### The single-sample path and the Verdict Builder

Modelled from the spec: `backend/api/manual.py` (the `POST /manual-predict`
handler, the spec's Single-Sample Orchestrator and Verdict Builder) is not in
the repository snapshot — only its documentation (`BACKEND_FOR_FRONTEND.md`,
`COMPATIBILITY_REPORT.md`) and its frontend caller are.  The definitions below
follow the spec's words (§4.2, §4.6, §4.8, §6). -/

/-- Modelled from the spec: §3 `CanonicalFeatureRecord` — the canonical
parameter set of the manual-entry body, with explicit absence markers for
the optional fields. -/
structure CanonicalFeatureRecord where
  orbital_period_days : ℚ
  planet_radius_earth_radii : ℚ
  transit_duration_hours : ℚ
  transit_depth_ppm : Option ℚ
  stellar_temp_kelvin : Option ℚ
deriving DecidableEq

/-- Modelled from the spec: §4.2 Feature Extractor on a canonical record —
the fixed-order feature vector, substituting the documented per-field default
constants (whose numeric values the spec does not fix; they are passed in as
`dDepth` and `dTemp`) for absent optional fields. -/
def extractCanonical (dDepth dTemp : ℚ) (P : CanonicalFeatureRecord) : List ℚ :=
  [P.orbital_period_days, P.planet_radius_earth_radii, P.transit_duration_hours,
   P.transit_depth_ppm.getD dDepth, P.stellar_temp_kelvin.getD dTemp]

/-- Modelled from the spec: §4.6 Verdict Builder confidence bucket — `HIGH`
if `probability ≥ 0.8 or probability ≤ 0.2`; `MEDIUM` if
`0.6 ≤ probability < 0.8` or `0.2 < probability ≤ 0.4`; `LOW` otherwise. -/
def confidenceBucket (p : ℚ) : String :=
  if 4 / 5 ≤ p ∨ p ≤ 1 / 5 then "HIGH"
  else if (3 / 5 ≤ p ∧ p < 4 / 5) ∨ (1 / 5 < p ∧ p ≤ 2 / 5) then "MEDIUM"
  else "LOW"

/-- The `POST /manual-predict` response body, as documented in
`BACKEND_FOR_FRONTEND.md` (the free-form `interpretation` string is not
embedded). -/
structure SingleResponse where
  prediction : String
  probability : ℚ
  confidence : String
  model_used : String
  features_used : List ℚ
deriving DecidableEq

/-- Modelled from the spec: §4.8 Single-Sample Orchestrator `runSingle` —
the canonical parameters pass through Feature Extraction and Scaling and are
scored by the selected model, exactly as one batch row is. -/
def runSingle (dDepth dTemp : ℚ) (reg : ModelRegistry) (P : CanonicalFeatureRecord)
    (model : String) (t : ℚ) : Except String SingleResponse :=
  match reg.get_model model with
  | Except.error msg => Except.error msg
  | Except.ok clf =>
    let v := extractCanonical dDepth dTemp P
    let p := clf (applyScaler (reg.get_scaler model) v)
    Except.ok
      { prediction := predLabel p t
        probability := p
        confidence := confidenceBucket p
        model_used := model
        features_used := v }

/-! ### The manual-entry frontend component

`frontend/exoplanet-ui/src/components/ManualEntry.tsx` and the API client
`services/api.ts` (`ApiService.predictManual`).  The component's observable
actions are embedded as an effect list. -/

/-- The data the manual-entry form creates (`ExoplanetData` in
`services/api.ts`). -/
structure ExoplanetData where
  id : String
  name : String
  host_star : String
  orbital_period : ℚ
  planet_radius : ℚ
  stellar_radius : ℚ
  distance_from_earth : ℚ
  discovery_method : String
  discovery_year : Int
  equilibrium_temperature : ℚ
deriving DecidableEq

/-- The form state of `ManualEntry.tsx` (`formData`, without the id, which is
generated at submit time). -/
structure ManualFormData where
  name : String
  host_star : String
  orbital_period : ℚ
  planet_radius : ℚ
  stellar_radius : ℚ
  distance_from_earth : ℚ
  discovery_method : String
  discovery_year : Int
  equilibrium_temperature : ℚ
deriving DecidableEq

/-- The body of `POST /manual-predict` (`ManualPredictionInput` in
`services/api.ts`). -/
structure ManualPredictionInput where
  orbital_period : ℚ
  planet_radius : ℚ
  transit_duration : ℚ
  transit_depth : Option ℚ
  stellar_temp : Option ℚ
  model : Option String
deriving DecidableEq

/-- An observable action of the component: an HTTP request to the backend,
the `onExoplanetCreate` callback, the success flag, or the delayed form
reset. -/
inductive UiEffect
  | apiRequest (endpoint : String) (body : ManualPredictionInput)
  | createExoplanet (e : ExoplanetData)
  | setSuccess (b : Bool)
  | scheduleReset
deriving DecidableEq

/-- `ApiService.predictManual`: a `POST` of the input to
`{baseURL}/manual-predict`. -/
def ApiService.predictManual (baseURL : String) (input : ManualPredictionInput) :
    UiEffect :=
  UiEffect.apiRequest (baseURL ++ "/manual-predict") input

/-- `validateForm` of `ManualEntry.tsx`: `true` iff no field error is set. -/
def validateForm (currentYear : Int) (f : ManualFormData) : Bool :=
  ¬ (f.name.trim = "") ∧ ¬ (f.host_star.trim = "") ∧
    0 < f.orbital_period ∧ 0 < f.planet_radius ∧ 0 < f.stellar_radius ∧
    0 < f.distance_from_earth ∧
    1995 ≤ f.discovery_year ∧ f.discovery_year ≤ currentYear ∧
    0 ≤ f.equilibrium_temperature ∧ f.equilibrium_temperature ≤ 3000

/-- `handleSubmit` of `ManualEntry.tsx`: validate; on success build an
`ExoplanetData` from the form with a freshly generated id (the
`manual-${Date.now()}-${random}` string, passed in as `freshId`), hand it to
`onExoplanetCreate`, set the success flag and schedule the delayed reset.
No other action is performed. -/
def handleSubmit (currentYear : Int) (freshId : String) (f : ManualFormData) :
    List UiEffect :=
  if validateForm currentYear f then
    [UiEffect.createExoplanet
      { id := freshId
        name := f.name
        host_star := f.host_star
        orbital_period := f.orbital_period
        planet_radius := f.planet_radius
        stellar_radius := f.stellar_radius
        distance_from_earth := f.distance_from_earth
        discovery_method := f.discovery_method
        discovery_year := f.discovery_year
        equilibrium_temperature := f.equilibrium_temperature },
     UiEffect.setSuccess true, UiEffect.scheduleReset]
  else []

/-! ### Helper lemmas -/

theorem lookup_eq_none_of_not_mem_keys {α β : Type} [BEq α] [LawfulBEq α]
    (l : List (α × β)) (a : α) (h : a ∉ l.map Prod.fst) : l.lookup a = none := by
  induction l with
  | nil => rfl
  | cons kv tl ih =>
    obtain ⟨k, v⟩ := kv
    simp only [List.map_cons, List.mem_cons, not_or] at h
    rw [List.lookup_cons]
    have hk : (a == k) = false := beq_eq_false_iff_ne.mpr h.1
    rw [hk]
    exact ih h.2

/-! ### C8: threshold semantics of the label -/

theorem predLabel_planet_iff (p t : ℚ) : predLabel p t = "PLANET" ↔ t ≤ p := by
  have hne : ("FALSE POSITIVE" : String) ≠ "PLANET" := by decide
  unfold predLabel
  split
  · next h => simp [h]
  · next h => simp [hne, h]

theorem predLabel_false_positive_iff (p t : ℚ) :
    predLabel p t = "FALSE POSITIVE" ↔ p < t := by
  have hne : ("PLANET" : String) ≠ "FALSE POSITIVE" := by decide
  unfold predLabel
  split
  · next h => simp [hne, not_lt.mpr h]
  · next h => simp [lt_of_not_le h]

/-- C8: for a fixed probability `p`, the label computed by the batch endpoint
(`y_pred = (y_proba >= threshold)`) is `PLANET` exactly for thresholds
`t ≤ p` and `FALSE POSITIVE` exactly for `t > p`, so raising the threshold
from 0 to 1 flips the label from `PLANET` to `FALSE POSITIVE` at most once,
with the boundary at `t = p`, and the label is antitone in the threshold. -/
theorem predLabel_flip_once (p t t₁ t₂ : ℚ) :
    (predLabel p t = "PLANET" ↔ t ≤ p) ∧
    (predLabel p t = "FALSE POSITIVE" ↔ p < t) ∧
    (t₁ ≤ t₂ → predLabel p t₂ = "PLANET" → predLabel p t₁ = "PLANET") := by
  refine ⟨predLabel_planet_iff p t, predLabel_false_positive_iff p t, ?_⟩
  intro hle h2
  exact (predLabel_planet_iff p t₁).mpr
    (le_trans hle ((predLabel_planet_iff p t₂).mp h2))

/-- Witness for C8 at `p = 1/2`: threshold `0` gives `PLANET`, threshold
`3/4` gives `FALSE POSITIVE`, and antitonicity transports `PLANET` from
threshold `1/2` down to threshold `1/4`. -/
theorem predLabel_flip_once_witness :
    predLabel ((1 : ℚ)/2) 0 = "PLANET" ∧
    predLabel ((1 : ℚ)/2) (3/4) = "FALSE POSITIVE" ∧
    predLabel ((1 : ℚ)/2) (1/4) = "PLANET" :=
  ⟨(predLabel_flip_once (1/2) 0 0 1).1.mpr (by norm_num),
   (predLabel_flip_once (1/2) (3/4) 0 1).2.1.mpr (by norm_num),
   (predLabel_flip_once (1/2) 0 (1/4) (1/2)).2.2 (by norm_num)
     ((predLabel_flip_once (1/2) (1/2) 0 1).1.mpr (by norm_num))⟩

/-! ### C6: unknown model lookup -/

/-- C6: looking up a model identifier that is not registered fails with the
`ValueError` whose message lists the valid identifiers (the spec's
`UnknownModelError`), and never returns any model in its place. -/
theorem get_model_unknown_fails (reg : ModelRegistry) (name : String)
    (h : name ∉ reg.list_models) :
    reg.get_model name = Except.error (unknownModelMessage name reg.list_models) ∧
    ∀ m : Model, reg.get_model name ≠ Except.ok m := by
  have hnone : reg.models.lookup name = none :=
    lookup_eq_none_of_not_mem_keys reg.models name h
  constructor
  · unfold ModelRegistry.get_model
    rw [hnone]
  · intro m hcontra
    unfold ModelRegistry.get_model at hcontra
    rw [hnone] at hcontra
    exact Except.noConfusion hcontra

/-- A concrete classifier for fixtures: constant probability `1/2`. -/
def clfFix : Model := fun _ => 1/2

/-- A concrete registry holding a single model named `xgb`, as loaded by
`_load_models` when only `models/xgb.pkl` is on disk. -/
def regFix : ModelRegistry :=
  { models := [("xgb", clfFix)], scalers := [] }

/-- Witness for C6: `lookup("nonexistent")` on the one-model registry fails
with the message listing `xgb`. -/
theorem get_model_unknown_fails_witness :
    regFix.get_model "nonexistent" =
      Except.error (unknownModelMessage "nonexistent" ["xgb"]) ∧
    regFix.get_model "nonexistent" ≠ Except.ok (fun _ => 1/2) :=
  ⟨(get_model_unknown_fails regFix "nonexistent" (by decide)).1,
   (get_model_unknown_fails regFix "nonexistent" (by decide)).2 (fun _ => 1/2)⟩

/-! ### C4: confidence bucket determinism -/

/-- C4: the confidence bucket of a single-sample verdict is the pure
function `confidenceBucket` of the probability alone — `HIGH` when
`p ≥ 4/5` or `p ≤ 1/5`, `MEDIUM` when `3/5 ≤ p < 4/5` or `1/5 < p ≤ 2/5`,
`LOW` otherwise — and two runs of the single-sample path on the same
parameters and model with different thresholds report the same bucket. -/
theorem confidence_bucket_determinism (p t t' dD dT : ℚ) (reg : ModelRegistry)
    (P : CanonicalFeatureRecord) (model : String) (s s' : SingleResponse)
    (hs : runSingle dD dT reg P model t = Except.ok s)
    (hs' : runSingle dD dT reg P model t' = Except.ok s') :
    s.confidence = confidenceBucket s.probability ∧
    s.confidence = s'.confidence ∧
    (4/5 ≤ p ∨ p ≤ 1/5 → confidenceBucket p = "HIGH") ∧
    ((3/5 ≤ p ∧ p < 4/5) ∨ (1/5 < p ∧ p ≤ 2/5) → confidenceBucket p = "MEDIUM") ∧
    (2/5 < p ∧ p < 3/5 → confidenceBucket p = "LOW") := by
  refine ⟨?_, ?_, ?_, ?_, ?_⟩
  · cases hm : reg.get_model model with
    | error msg => rw [runSingle, hm] at hs; exact Except.noConfusion hs
    | ok clf =>
      rw [runSingle, hm] at hs
      simp only [Except.ok.injEq] at hs
      rw [← hs]
  · cases hm : reg.get_model model with
    | error msg => rw [runSingle, hm] at hs; exact Except.noConfusion hs
    | ok clf =>
      rw [runSingle, hm] at hs hs'
      simp only [Except.ok.injEq] at hs hs'
      rw [← hs, ← hs']
  · intro h
    unfold confidenceBucket
    rw [if_pos h]
  · intro h
    unfold confidenceBucket
    rw [if_neg, if_pos h]
    rcases h with ⟨h1, h2⟩ | ⟨h1, h2⟩ <;> push_neg <;> constructor <;> linarith
  · intro ⟨h1, h2⟩
    unfold confidenceBucket
    rw [if_neg, if_neg]
    · push_neg
      constructor <;> intro <;> linarith
    · push_neg
      constructor <;> linarith

/-- A concrete canonical parameter set (the Earth-like example of the spec
test `koi_period=365, koi_prad=1.0, koi_duration=13.0`). -/
def recFix : CanonicalFeatureRecord :=
  { orbital_period_days := 365, planet_radius_earth_radii := 1,
    transit_duration_hours := 13, transit_depth_ppm := some 0,
    stellar_temp_kelvin := none }

/-- The single-sample response on `regFix` / `recFix` at threshold `1/4`. -/
def singleRespA : SingleResponse :=
  { prediction := "PLANET", probability := 1/2, confidence := "LOW",
    model_used := "xgb", features_used := [365, 1, 13, 0, 5778] }

/-- The single-sample response on `regFix` / `recFix` at threshold `3/4`. -/
def singleRespB : SingleResponse :=
  { prediction := "FALSE POSITIVE", probability := 1/2, confidence := "LOW",
    model_used := "xgb", features_used := [365, 1, 13, 0, 5778] }

/-- Witness for C4: the single-sample path on the concrete registry at
thresholds `1/4` and `3/4` yields the same bucket, and the three range
facts hold at `p = 9/10`, `p = 7/10` and `p = 1/2`. -/
theorem confidence_bucket_determinism_witness :
    singleRespA.confidence = singleRespB.confidence ∧
    confidenceBucket ((9 : ℚ)/10) = "HIGH" ∧
    confidenceBucket ((7 : ℚ)/10) = "MEDIUM" ∧
    confidenceBucket ((1 : ℚ)/2) = "LOW" := by
  have hA : runSingle 0 5778 regFix recFix "xgb" (1/4) = Except.ok singleRespA := by
    with_unfolding_all rfl
  have hB : runSingle 0 5778 regFix recFix "xgb" (3/4) = Except.ok singleRespB := by
    with_unfolding_all rfl
  have h := confidence_bucket_determinism (9/10) (1/4) (3/4) 0 5778 regFix
    recFix "xgb" singleRespA singleRespB hA hB
  have h7 := confidence_bucket_determinism (7/10) (1/4) (3/4) 0 5778 regFix
    recFix "xgb" singleRespA singleRespB hA hB
  have h5 := confidence_bucket_determinism (1/2) (1/4) (3/4) 0 5778 regFix
    recFix "xgb" singleRespA singleRespB hA hB
  exact ⟨h.2.1, h.2.2.1 (by norm_num), h7.2.2.2.1 (by norm_num),
    h5.2.2.2.2 (by norm_num)⟩

/-! ### C10: the manual-entry form performs no prediction -/

/-- C10: `handleSubmit` of `ManualEntry.tsx` never issues an HTTP request —
in particular never the `POST /manual-predict` of `ApiService.predictManual` —
and yields no probability or verdict: when validation passes it only hands a
locally built `ExoplanetData` with the freshly generated id to the
`onExoplanetCreate` callback (then sets the success flag and schedules the
reset), and when validation fails it does nothing. -/
theorem manual_entry_submit_no_prediction (y : Int) (fid : String)
    (f : ManualFormData) (base : String) (inp : ManualPredictionInput) :
    (∀ eff ∈ handleSubmit y fid f, ∀ ep body, eff ≠ UiEffect.apiRequest ep body) ∧
    (∀ eff ∈ handleSubmit y fid f, eff ≠ ApiService.predictManual base inp) ∧
    (validateForm y f = true →
      handleSubmit y fid f =
        [UiEffect.createExoplanet
          { id := fid, name := f.name, host_star := f.host_star,
            orbital_period := f.orbital_period, planet_radius := f.planet_radius,
            stellar_radius := f.stellar_radius,
            distance_from_earth := f.distance_from_earth,
            discovery_method := f.discovery_method,
            discovery_year := f.discovery_year,
            equilibrium_temperature := f.equilibrium_temperature },
         UiEffect.setSuccess true, UiEffect.scheduleReset]) ∧
    (validateForm y f = false → handleSubmit y fid f = []) := by
  refine ⟨?_, ?_, ?_, ?_⟩
  · intro eff heff ep body
    unfold handleSubmit at heff
    split at heff
    · simp only [List.mem_cons, List.not_mem_nil, or_false] at heff
      rcases heff with h | h | h <;> subst h <;> simp
    · simp at heff
  · intro eff heff
    unfold ApiService.predictManual
    unfold handleSubmit at heff
    split at heff
    · simp only [List.mem_cons, List.not_mem_nil, or_false] at heff
      rcases heff with h | h | h <;> subst h <;> simp
    · simp at heff
  · intro hv
    unfold handleSubmit
    rw [if_pos hv]
  · intro hv
    unfold handleSubmit
    rw [if_neg (by simp [hv])]

/-- A concrete filled-in manual-entry form (the Proxima Centauri b preset of
the component, with ASCII naming). -/
def formFix : ManualFormData :=
  { name := "Proxima Centauri b", host_star := "Proxima Centauri",
    orbital_period := 112/10, planet_radius := 117/100,
    stellar_radius := 15/100, distance_from_earth := 424/100,
    discovery_method := "Radial Velocity", discovery_year := 2016,
    equilibrium_temperature := 234 }

/-- Witness for C10: submitting the valid preset form produces exactly the
local create-and-flag effect list, with no API request. -/
theorem manual_entry_submit_no_prediction_witness :
    handleSubmit 2025 "manual-1" formFix =
      [UiEffect.createExoplanet
        { id := "manual-1", name := "Proxima Centauri b",
          host_star := "Proxima Centauri", orbital_period := 112/10,
          planet_radius := 117/100, stellar_radius := 15/100,
          distance_from_earth := 424/100, discovery_method := "Radial Velocity",
          discovery_year := 2016, equilibrium_temperature := 234 },
       UiEffect.setSuccess true, UiEffect.scheduleReset] ∧
    UiEffect.scheduleReset ≠
      ApiService.predictManual "http://localhost:8000/api"
        { orbital_period := 112/10, planet_radius := 117/100,
          transit_duration := 3, transit_depth := none, stellar_temp := none,
          model := none } := by
  have h := manual_entry_submit_no_prediction 2025 "manual-1" formFix
    "http://localhost:8000/api"
    { orbital_period := 112/10, planet_radius := 117/100, transit_duration := 3,
      transit_depth := none, stellar_temp := none, model := none }
  have hv : validateForm 2025 formFix = true := by with_unfolding_all rfl
  refine ⟨h.2.2.1 hv, ?_⟩
  have hmem : UiEffect.scheduleReset ∈ handleSubmit 2025 "manual-1" formFix := by
    rw [h.2.2.1 hv]
    simp
  exact h.2.1 UiEffect.scheduleReset hmem

/-! ### Inversion of a successful batch response -/

/-- A successful response of the batch endpoint comes from the response
builder: the threshold passed validation, the file name ends in `.csv`, at
least one row survived extraction, the model was found, and the response is
`buildResponse` over the valid rows. -/
theorem predict_ok_inversion (reg : ModelRegistry) (ex : Extractor)
    (file : UploadFile) (model : String) (t : ℚ) (resp : PredictionResponse)
    (h : predict_exoplanets reg ex file model t = Except.ok resp) :
    (0 ≤ t ∧ t ≤ 1) ∧ file.filename.endsWith ".csv" = true ∧
    validRows ex file ≠ [] ∧
    ∃ clf, reg.get_model model = Except.ok clf ∧
      resp = buildResponse model t clf (reg.get_scaler model) (validRows ex file) := by
  unfold predict_exoplanets at h
  split at h
  · exact Except.noConfusion h
  · next hthr =>
    have ht : 0 ≤ t ∧ t ≤ 1 := not_not.mp hthr
    cases hbody : predictBody reg ex file model t with
    | error e => rw [hbody] at h; exact Except.noConfusion h
    | ok r =>
      rw [hbody] at h
      cases h
      unfold predictBody at hbody
      split at hbody
      · exact Except.noConfusion hbody
      · next hcsv =>
        have hcsv' : file.filename.endsWith ".csv" = true := by
          by_contra hc
          exact hcsv (by simpa using hc)
        split at hbody
        · dsimp only [] at hbody
          split at hbody
          · exact Except.noConfusion hbody
          · exact Except.noConfusion hbody
        · rename_i clf hclf
          dsimp only [] at hbody
          split at hbody
          · exact Except.noConfusion hbody
          · rename_i hne
            have hvr : validRows ex file ≠ [] := by
              intro hnil
              rw [hnil] at hne
              exact hne rfl
            refine ⟨ht, hcsv', hvr, clf, hclf, ?_⟩
            cases hbody
            rfl

/-! ### C1: label versus threshold, and threshold validation -/

/-- C1: for every row returned by the batch endpoint, the label is `PLANET`
exactly when the row's probability is at or above the caller-supplied
threshold and `FALSE POSITIVE` otherwise; and a threshold outside `[0, 1]`
is rejected by the request validation (the `Form(..., ge=0.0, le=1.0)`
constraint, the spec's `InvalidThresholdError`) instead of being accepted. -/
theorem batch_label_threshold (reg : ModelRegistry) (ex : Extractor)
    (file : UploadFile) (model : String) (t : ℚ) :
    (¬ (0 ≤ t ∧ t ≤ 1) →
      predict_exoplanets reg ex file model t =
        Except.error (ApiFailure.validationError "threshold")) ∧
    (∀ resp, predict_exoplanets reg ex file model t = Except.ok resp →
      ∀ pr ∈ resp.predictions,
        (pr.prediction = "PLANET" ↔ t ≤ pr.probability) ∧
        (pr.prediction = "FALSE POSITIVE" ↔ pr.probability < t)) := by
  constructor
  · intro hbad
    unfold predict_exoplanets
    rw [if_pos hbad]
  · intro resp h pr hpr
    obtain ⟨-, -, -, clf, -, hresp⟩ := predict_ok_inversion reg ex file model t resp h
    subst hresp
    simp only [buildResponse, List.mem_map] at hpr
    obtain ⟨e, -, he⟩ := hpr
    subst he
    simp only [mkPrediction]
    exact ⟨predLabel_planet_iff _ t, predLabel_false_positive_iff _ t⟩

/-! ### Concrete batch fixtures -/

/-- A valid catalog row: the required `koi_period` column is present. -/
def rowOk : RawRow := { cells := [("koi_period", Cell.num 1)] }

/-- An invalid catalog row: the required column is missing. -/
def rowBad : RawRow := { cells := [] }

/-- A concrete extractor for the fixtures: the feature vector is the value of
the required `koi_period` column; a row without it fails (the spec's
`MissingFeatureError`) and is dropped from the extracted frame. -/
def exFix : Extractor := fun r =>
  match r.cells.lookup "koi_period" with
  | some (Cell.num q) => Except.ok [q]
  | _ => Except.error "MissingFeatureError: orbital_period_days"

/-- A two-row CSV upload of valid rows. -/
def fileSmall : UploadFile := { filename := "upload.csv", rows := [rowOk, rowOk] }

/-- The first prediction of the batch response on `fileSmall`. -/
def predSmall : SinglePrediction :=
  { id := "0", prediction := "PLANET", probability := 1/2, features := [1] }

/-- The batch response on `fileSmall` with model `xgb` and threshold `1/2`. -/
def respSmall : PredictionResponse :=
  { success := true, model_used := "xgb", threshold := 1/2, total_samples := 2,
    predictions := [predSmall,
      { id := "1", prediction := "PLANET", probability := 1/2, features := [1] }],
    summary := { predicted_planets := 2, false_positives := 0,
                 mean_probability := 1/2, high_confidence_count := 0 } }

/-- Witness for C1: threshold `3/2` is rejected with the validation error,
and on a successful run the returned label `PLANET` agrees with
`probability ≥ threshold` at the first returned row. -/
theorem batch_label_threshold_witness :
    predict_exoplanets regFix exFix fileSmall "xgb" (3/2) =
      Except.error (ApiFailure.validationError "threshold") ∧
    (predSmall.prediction = "PLANET" ↔ (1 : ℚ)/2 ≤ predSmall.probability) := by
  have hok : predict_exoplanets regFix exFix fileSmall "xgb" (1/2) =
      Except.ok respSmall := by with_unfolding_all rfl
  exact ⟨(batch_label_threshold regFix exFix fileSmall "xgb" (3/2)).1 (by norm_num),
    ((batch_label_threshold regFix exFix fileSmall "xgb" (1/2)).2 respSmall hok
      predSmall (List.mem_cons_self _ _)).1⟩

/-! ### C2: summary correctness -/

theorem countP_add_countP_not (t : ℚ) (l : List ℚ) :
    l.countP (fun p => decide (t ≤ p)) + l.countP (fun p => decide (¬ t ≤ p)) =
      l.length := by
  induction l with
  | nil => rfl
  | cons a l ih =>
    rw [List.countP_cons, List.countP_cons, List.length_cons]
    by_cases h : t ≤ a
    · rw [if_pos (by simp [h]), if_neg (by simp [h])]
      omega
    · rw [if_neg (by simp [h]), if_pos (by simp [h])]
      omega

theorem map_probability_buildResponse (model : String) (t : ℚ) (clf : Model)
    (scaler : Option Scaler) (vr : List (Nat × RawRow × List ℚ)) :
    (buildResponse model t clf scaler vr).predictions.map
        SinglePrediction.probability = vr.map (rowProb clf scaler) := by
  simp only [buildResponse, List.map_map]
  rfl

/-- C2: in every successful batch response, `predicted_planets` plus
`false_positives` equals `total_samples`, `mean_probability` is the
arithmetic mean of the returned per-row probabilities, and
`high_confidence_count` counts the returned rows with probability strictly
greater than `0.7`. -/
theorem batch_summary_correct (reg : ModelRegistry) (ex : Extractor)
    (file : UploadFile) (model : String) (t : ℚ) (resp : PredictionResponse)
    (h : predict_exoplanets reg ex file model t = Except.ok resp) :
    resp.summary.predicted_planets + resp.summary.false_positives =
      resp.total_samples ∧
    resp.summary.mean_probability =
      (resp.predictions.map SinglePrediction.probability).sum /
        ((resp.predictions.map SinglePrediction.probability).length : ℚ) ∧
    resp.summary.high_confidence_count =
      resp.predictions.countP (fun pr => decide ((7 : ℚ)/10 < pr.probability)) := by
  obtain ⟨-, -, -, clf, -, hresp⟩ := predict_ok_inversion reg ex file model t resp h
  subst hresp
  refine ⟨?_, ?_, ?_⟩
  · dsimp only [buildResponse, mkSummary]
    have hcp := countP_add_countP_not t
      ((validRows ex file).map (rowProb clf (reg.get_scaler model)))
    simp only [List.length_map] at hcp ⊢
    exact hcp
  · rw [map_probability_buildResponse]
    rfl
  · simp only [buildResponse, mkSummary, List.countP_map]
    rfl

/-- Witness for C2: the three summary equations hold for the concrete
two-row batch response. -/
theorem batch_summary_correct_witness :
    respSmall.summary.predicted_planets + respSmall.summary.false_positives =
      respSmall.total_samples ∧
    respSmall.summary.mean_probability =
      (respSmall.predictions.map SinglePrediction.probability).sum /
        ((respSmall.predictions.map SinglePrediction.probability).length : ℚ) ∧
    respSmall.summary.high_confidence_count =
      respSmall.predictions.countP
        (fun pr => decide ((7 : ℚ)/10 < pr.probability)) :=
  batch_summary_correct regFix exFix fileSmall "xgb" (1/2) respSmall
    (by with_unfolding_all rfl)

/-! ### C7: order preservation -/

/-- C7: the verdict list of a successful batch response has one entry per
valid input row and preserves the input row order: the `i`-th returned
prediction is exactly the prediction built from the `i`-th valid input row
(`predict_exoplanets` iterates `df.loc[X.index].iterrows()` in order and
appends). -/
theorem batch_order_preserved (reg : ModelRegistry) (ex : Extractor)
    (file : UploadFile) (model : String) (t : ℚ) (resp : PredictionResponse)
    (h : predict_exoplanets reg ex file model t = Except.ok resp) :
    ∃ clf, reg.get_model model = Except.ok clf ∧
      resp.predictions.length = (validRows ex file).length ∧
      ∀ (i : Nat) (hi : i < resp.predictions.length)
        (hv : i < (validRows ex file).length),
        resp.predictions.get ⟨i, hi⟩ =
          mkPrediction t clf (reg.get_scaler model)
            ((validRows ex file).get ⟨i, hv⟩) := by
  obtain ⟨-, -, -, clf, hclf, hresp⟩ := predict_ok_inversion reg ex file model t resp h
  subst hresp
  refine ⟨clf, hclf, by simp [buildResponse], ?_⟩
  intro i hi hv
  simp only [buildResponse] at hi ⊢
  exact List.getElem_map _

/-- Witness for C7: in the concrete two-row batch, the second returned
prediction is the one built from the second valid row. -/
theorem batch_order_preserved_witness :
    respSmall.predictions.get ⟨1, by simp [respSmall, predSmall]⟩ =
      mkPrediction (1/2) clfFix none
        ((validRows exFix fileSmall).get
          ⟨1, by simp [validRows, fileSmall, processRows, exFix, rowOk]⟩) := by
  have hok : predict_exoplanets regFix exFix fileSmall "xgb" (1/2) =
      Except.ok respSmall := by with_unfolding_all rfl
  obtain ⟨clf, hclf, -, hget⟩ :=
    batch_order_preserved regFix exFix fileSmall "xgb" (1/2) respSmall hok
  have hclf' : regFix.get_model "xgb" = Except.ok clfFix := by
    with_unfolding_all rfl
  rw [hclf'] at hclf
  have hscaler : regFix.get_scaler "xgb" = none := rfl
  have := hget 1 (by simp [respSmall, predSmall])
    (by simp [validRows, fileSmall, processRows, exFix, rowOk])
  rw [hscaler] at this
  have hc : clfFix = clf := by
    injection hclf
  rw [this, ← hc]

/-! ### C5: batch row-count accounting -/

theorem processRows_length_add (ex : Extractor) (rs : List RawRow) (i : Nat) :
    (processRows ex i rs).length +
      rs.countP (fun r => (ex r).toOption.isNone) = rs.length := by
  induction rs generalizing i with
  | nil => rfl
  | cons r rs ih =>
    rw [List.countP_cons, List.length_cons]
    cases hex : ex r with
    | ok v =>
      have h1 : processRows ex i (r :: rs) = (i, r, v) :: processRows ex (i + 1) rs := by
        simp only [processRows, hex]
      rw [h1, List.length_cons, if_neg (by simp [Except.toOption])]
      have := ih (i + 1)
      omega
    | error e =>
      have h1 : processRows ex i (r :: rs) = processRows ex (i + 1) rs := by
        simp only [processRows, hex]
      rw [h1, if_pos (by simp [Except.toOption])]
      have := ih (i + 1)
      omega

/-- C5 (amended): a row that fails extraction is excluded from the returned
predictions — `total_samples` counts exactly the valid rows, so the
100-row/3-invalid fixture reports 97, never 100 — and the number of excluded
rows is `file.rows.length - total_samples`; the response itself, however,
carries no excluded-row count (see the counterexample). -/
theorem batch_row_accounting (reg : ModelRegistry) (ex : Extractor)
    (file : UploadFile) (model : String) (t : ℚ) (resp : PredictionResponse)
    (h : predict_exoplanets reg ex file model t = Except.ok resp) :
    resp.total_samples = (validRows ex file).length ∧
    resp.total_samples + excludedCount ex file = file.rows.length := by
  obtain ⟨-, -, -, clf, -, hresp⟩ := predict_ok_inversion reg ex file model t resp h
  subst hresp
  constructor
  · simp [buildResponse]
  · show (buildResponse model t clf (reg.get_scaler model)
       (validRows ex file)).total_samples + _ = _
    simp only [buildResponse, List.length_map]
    exact processRows_length_add ex file.rows 0

/-- Witness for C5 (amended): on the concrete two-row upload the response
counts 2 samples and 0 excluded rows, summing to the uploaded row count. -/
theorem batch_row_accounting_witness :
    respSmall.total_samples = (validRows exFix fileSmall).length ∧
    respSmall.total_samples + excludedCount exFix fileSmall =
      fileSmall.rows.length :=
  batch_row_accounting regFix exFix fileSmall "xgb" (1/2) respSmall
    (by with_unfolding_all rfl)

/-- A 100-row upload: 97 valid rows followed by 3 rows lacking the required
column. -/
def fileA : UploadFile :=
  { filename := "batch.csv", rows := List.replicate 97 rowOk ++ [rowBad, rowBad, rowBad] }

/-- The same 97 valid rows with no invalid rows at all. -/
def fileB : UploadFile :=
  { filename := "batch.csv", rows := List.replicate 97 rowOk }

/-- Counterexample for C5: uploading 100 rows of which 3 lack the required
column yields `total_samples = 97` (not 100), but the full response is
*identical* to the response for the 97-row upload that excluded nothing —
so the response reports no excluded-row count at all (a reader of the
response cannot tell 3 exclusions from 0), contradicting the claim that an
excluded-row count of 3, never 0, is reported. -/
theorem batch_excluded_rows_not_reported :
    predict_exoplanets regFix exFix fileA "xgb" (1/2) =
      predict_exoplanets regFix exFix fileB "xgb" (1/2) ∧
    excludedCount exFix fileA = 3 ∧
    excludedCount exFix fileB = 0 ∧
    (predict_exoplanets regFix exFix fileA "xgb" (1/2)).toOption.map
      PredictionResponse.total_samples = some 97 := by
  refine ⟨?_, ?_, ?_, ?_⟩
  · with_unfolding_all rfl
  · with_unfolding_all rfl
  · with_unfolding_all rfl
  · with_unfolding_all rfl

/-! ### C9: non-CSV uploads are coerced into a generic failure -/

/-- A non-CSV upload. -/
def fileTxt : UploadFile := { filename := "data.txt", rows := [rowOk] }

/-- C9 (code evaluated at the failing input): the handler raises
`HTTPException(400, "File must be a CSV")` for a non-CSV upload, but its own
blanket `except Exception` clause catches that exception and re-raises it as
the generic `HTTPException(500, "Prediction failed: ...")` — the upload is
rejected immediately, yet the machine-readable 400 file-type error kind is
coerced into the generic 500 failure wrapper. -/
theorem non_csv_upload_wrapped_generic :
    predict_exoplanets regFix exFix fileTxt "xgb" (1/2) =
      Except.error
        (ApiFailure.http 500 "Prediction failed: 400: File must be a CSV") := by
  with_unfolding_all rfl

/-! ### C3: path parity between single-sample and batch-of-one -/

/-- C3: if the batch extraction of a row agrees with the single-sample
feature extraction of a canonical parameter set `P` (the FeatureVector
uniformity invariant of §3), then for every model and threshold the
probability of the sole verdict of the batch-of-one run equals the
probability returned by the single-sample run on `P`. -/
theorem path_parity (dD dT t : ℚ) (reg : ModelRegistry)
    (P : CanonicalFeatureRecord) (model fname : String) (row : RawRow)
    (ex : Extractor) (s : SingleResponse) (resp : PredictionResponse)
    (hex : ex row = Except.ok (extractCanonical dD dT P))
    (hs : runSingle dD dT reg P model t = Except.ok s)
    (hb : predict_exoplanets reg ex { filename := fname, rows := [row] }
        model t = Except.ok resp) :
    resp.predictions.map SinglePrediction.probability = [s.probability] := by
  obtain ⟨-, -, -, clf, hclf, hresp⟩ :=
    predict_ok_inversion reg ex { filename := fname, rows := [row] } model t resp hb
  subst hresp
  rw [map_probability_buildResponse]
  have hvr : validRows ex { filename := fname, rows := [row] } =
      [(0, row, extractCanonical dD dT P)] := by
    unfold validRows
    simp only [processRows, hex]
  rw [hvr]
  rw [runSingle, hclf] at hs
  simp only [Except.ok.injEq] at hs
  rw [← hs]
  rfl

/-- A batch-of-one extractor agreeing with the single-sample extraction of
`recFix`. -/
def exOne : Extractor := fun _ => Except.ok (extractCanonical 0 5778 recFix)

/-- The batch-of-one response for `recFix` at threshold `1/4`. -/
def respOne : PredictionResponse :=
  { success := true, model_used := "xgb", threshold := 1/4, total_samples := 1,
    predictions := [{ id := "0", prediction := "PLANET", probability := 1/2,
                      features := [365, 1, 13, 0, 5778] }],
    summary := { predicted_planets := 1, false_positives := 0,
                 mean_probability := 1/2, high_confidence_count := 0 } }

/-- Witness for C3: on the concrete registry, the batch-of-one probability
list equals the singleton of the single-sample probability. -/
theorem path_parity_witness :
    respOne.predictions.map SinglePrediction.probability =
      [singleRespA.probability] :=
  path_parity 0 5778 (1/4) regFix recFix "xgb" "one.csv" rowOk exOne
    singleRespA respOne rfl (by with_unfolding_all rfl)
    (by with_unfolding_all rfl)

end Exo
